import Mathlib

/-!
Formal model of the StereoAlign alignment pipeline.

The TypeScript sources are embedded shallowly:

* `src/types.ts` — `Point`, `AppStep`, `ProcessingOptions`.
* `src/services/imageService.ts` — `calculateAngle`, `cloneCanvas`, `rotateImage`,
  `scaleImage`, `cropImagesAligned`, `mergeSideBySide`.
* `src/App.tsx` — the pipeline state (`useState` fields collected in `AppState`) and the
  handlers `handleAddPoint`, `undoLastPoint`, `clearPoints`, `startProcessing`,
  `applyRotation`, `applyScaling`, `applyCropping`, each modelled as a pure state
  transformer (a handler's sequence of `setX` calls becomes one record update).
* `src/components/InteractiveCanvas.tsx` — the per-view pan/zoom state and
  `fitToContainer`.

Numbers are modelled exactly: pixel coordinates as `ℚ`, canvas dimensions as `ℤ`, and the
trigonometry of `calculateAngle` / `rotateImage` over `ℝ` (JavaScript's `Math.atan2(y, x)`
is the argument of the complex number `x + y i`, with range `(-π, π]`).  An
`HTMLCanvasElement` is modelled by `Canvas`: every `document.createElement('canvas')`
receives a fresh allocation id, so two canvases denote the same DOM object exactly when
they carry the same `alloc`; the constructors record what was drawn onto the canvas.
`window.alert` is modelled as appending the message to an `alerts` log in the state.
-/

namespace StereoAlign

/-- src/types.ts `Point`: a correspondence point in image-pixel space. -/
structure Point where
  x : ℚ
  y : ℚ
deriving DecidableEq

/-- The `'left' | 'right'` side tag used by the point history. -/
inductive Side where
  | left
  | right
deriving DecidableEq

/-- src/types.ts `AppStep`. -/
inductive AppStep where
  | UPLOAD
  | ROTATE
  | SCALE
  | CROP
  | RESULT
deriving DecidableEq

/-- src/types.ts `ProcessingOptions`. -/
structure ProcessingOptions where
  assumeEqualTilt : Bool
  assumeEqualZoom : Bool
  assumeEqualFraming : Bool
  rotateLeftImage : Bool
deriving DecidableEq

/-- An `HTMLCanvasElement`.  `alloc` is the allocation identity of the DOM object
(fresh per `document.createElement('canvas')`), `w`/`h` its integer `canvas.width` and
`canvas.height`, and the remaining fields record which `drawImage` call produced its
content. -/
inductive Canvas where
  | uploaded (alloc : ℕ) (w h : ℤ)
  | cloned (alloc : ℕ) (w h : ℤ) (src : Canvas)
  | rotatedBuf (alloc : ℕ) (w h : ℤ) (src : Canvas) (angleDegrees : ℝ)
  | scaledBuf (alloc : ℕ) (w h : ℤ) (src : Canvas) (ratio : ℚ)
  | croppedBuf (alloc : ℕ) (w h : ℤ) (src : Canvas) (srcX srcY : ℤ)
  | mergedBuf (alloc : ℕ) (w h : ℤ) (srcLeft srcRight : Canvas) (yL yR : ℤ)

/-- The `canvas.width` property. -/
def Canvas.width : Canvas → ℤ
  | .uploaded _ w _ => w
  | .cloned _ w _ _ => w
  | .rotatedBuf _ w _ _ _ => w
  | .scaledBuf _ w _ _ _ => w
  | .croppedBuf _ w _ _ _ _ => w
  | .mergedBuf _ w _ _ _ _ _ => w

/-- The `canvas.height` property. -/
def Canvas.height : Canvas → ℤ
  | .uploaded _ _ h => h
  | .cloned _ _ h _ => h
  | .rotatedBuf _ _ h _ _ => h
  | .scaledBuf _ _ h _ _ => h
  | .croppedBuf _ _ h _ _ _ => h
  | .mergedBuf _ _ h _ _ _ _ => h

/-- The allocation identity of the underlying DOM object. -/
def Canvas.alloc : Canvas → ℕ
  | .uploaded a _ _ => a
  | .cloned a _ _ _ => a
  | .rotatedBuf a _ _ _ _ => a
  | .scaledBuf a _ _ _ _ => a
  | .croppedBuf a _ _ _ _ _ => a
  | .mergedBuf a _ _ _ _ _ _ => a

/-- imageService.ts `cloneCanvas`: a fresh canvas of floored dimensions with the source
drawn at the origin. -/
def cloneCanvas (fresh : ℕ) (source : Canvas) (width height : ℚ) : Canvas :=
  .cloned fresh ⌊width⌋ ⌊height⌋ source

/-- imageService.ts `calculateAngle`:
`Math.atan2(p2.y - p1.y, p2.x - p1.x) * (180 / Math.PI)`. -/
noncomputable def calculateAngle (p1 p2 : Point) : ℝ :=
  Complex.arg ⟨(p2.x : ℝ) - (p1.x : ℝ), (p2.y : ℝ) - (p1.y : ℝ)⟩ * (180 / Real.pi)

/-- imageService.ts `rotateImage`: below an epsilon of 0.01 degrees the source is cloned;
otherwise a fresh canvas of the rotated bounding-box size is produced. -/
noncomputable def rotateImage (fresh : ℕ) (source : Canvas) (angleDegrees : ℝ) : Canvas :=
  if |angleDegrees| < 0.01 then
    cloneCanvas fresh source (source.width : ℚ) (source.height : ℚ)
  else
    let angleRad := angleDegrees * Real.pi / 180
    let absCos := |Real.cos angleRad|
    let absSin := |Real.sin angleRad|
    .rotatedBuf fresh
      ⌈(source.width : ℝ) * absCos + (source.height : ℝ) * absSin⌉
      ⌈(source.width : ℝ) * absSin + (source.height : ℝ) * absCos⌉
      source angleDegrees

/-- imageService.ts `scaleImage`: within an epsilon of 0.001 of ratio 1 the source is
cloned; otherwise a fresh canvas of ceiled scaled dimensions is produced. -/
def scaleImage (fresh : ℕ) (source : Canvas) (scale : ℚ) : Canvas :=
  if |scale - 1| < 0.001 then
    cloneCanvas fresh source (source.width : ℚ) (source.height : ℚ)
  else
    .scaledBuf fresh ⌈(source.width : ℚ) * scale⌉ ⌈(source.height : ℚ) * scale⌉
      source scale

/-- imageService.ts `cropImagesAligned`.  `fresh` and `fresh + 1` are the allocation ids
of the two canvases created by `createCropped`. -/
def cropImagesAligned (fresh : ℕ) (leftC rightC : Canvas) (pL pR : Point)
    (_equalZoom : Bool) : Canvas × Canvas :=
  let cropLeft : ℤ := ⌊min pL.x pR.x⌋
  let cropRight : ℤ := ⌊min ((leftC.width : ℚ) - pL.x) ((rightC.width : ℚ) - pR.x)⌋
  let cropTop : ℤ := ⌊min pL.y pR.y⌋
  let cropBottom : ℤ := ⌊min ((leftC.height : ℚ) - pL.y) ((rightC.height : ℚ) - pR.y)⌋
  let finalWidth := cropLeft + cropRight
  let finalHeight := cropTop + cropBottom
  (Canvas.croppedBuf fresh finalWidth finalHeight leftC
      ⌊pL.x - (cropLeft : ℚ)⌋ ⌊pL.y - (cropTop : ℚ)⌋,
   Canvas.croppedBuf (fresh + 1) finalWidth finalHeight rightC
      ⌊pR.x - (cropLeft : ℚ)⌋ ⌊pR.y - (cropTop : ℚ)⌋)

/-- imageService.ts `mergeSideBySide` (the widths and heights are already integers, so
the source's `Math.floor` calls are identities). -/
def mergeSideBySide (fresh : ℕ) (leftC rightC : Canvas) : Canvas :=
  let outW := leftC.width + rightC.width
  let outH := max leftC.height rightC.height
  let yL : ℤ := ⌊((outH - leftC.height : ℤ) : ℚ) / 2⌋
  let yR : ℤ := ⌊((outH - rightC.height : ℤ) : ℚ) / 2⌋
  .mergedBuf fresh outW outH leftC rightC yL yR

/-- C1: `cropImagesAligned` crops with
`cropLeft = ⌊min(pL.x, pR.x)⌋`, `cropRight = ⌊min(wL - pL.x, wR - pR.x)⌋`,
`cropTop = ⌊min(pL.y, pR.y)⌋`, `cropBottom = ⌊min(hL - pL.y, hR - pR.y)⌋`;
both outputs have dimensions `(cropLeft + cropRight) × (cropTop + cropBottom)`, each is
cropped from its own source starting at `(⌊anchor.x - cropLeft⌋, ⌊anchor.y - cropTop⌋)`,
and the anchor pixel lands at the same relative position `(cropLeft, cropTop)` in both
outputs. -/
theorem cropImagesAligned_spec (fresh : ℕ) (l r : Canvas) (pL pR : Point) (ez : Bool) :
    (cropImagesAligned fresh l r pL pR ez).1.width =
        ⌊min pL.x pR.x⌋ + ⌊min ((l.width : ℚ) - pL.x) ((r.width : ℚ) - pR.x)⌋ ∧
    (cropImagesAligned fresh l r pL pR ez).2.width =
        ⌊min pL.x pR.x⌋ + ⌊min ((l.width : ℚ) - pL.x) ((r.width : ℚ) - pR.x)⌋ ∧
    (cropImagesAligned fresh l r pL pR ez).1.height =
        ⌊min pL.y pR.y⌋ + ⌊min ((l.height : ℚ) - pL.y) ((r.height : ℚ) - pR.y)⌋ ∧
    (cropImagesAligned fresh l r pL pR ez).2.height =
        ⌊min pL.y pR.y⌋ + ⌊min ((l.height : ℚ) - pL.y) ((r.height : ℚ) - pR.y)⌋ ∧
    (cropImagesAligned fresh l r pL pR ez).1 =
        Canvas.croppedBuf fresh
          (⌊min pL.x pR.x⌋ + ⌊min ((l.width : ℚ) - pL.x) ((r.width : ℚ) - pR.x)⌋)
          (⌊min pL.y pR.y⌋ + ⌊min ((l.height : ℚ) - pL.y) ((r.height : ℚ) - pR.y)⌋)
          l ⌊pL.x - (⌊min pL.x pR.x⌋ : ℚ)⌋ ⌊pL.y - (⌊min pL.y pR.y⌋ : ℚ)⌋ ∧
    (cropImagesAligned fresh l r pL pR ez).2 =
        Canvas.croppedBuf (fresh + 1)
          (⌊min pL.x pR.x⌋ + ⌊min ((l.width : ℚ) - pL.x) ((r.width : ℚ) - pR.x)⌋)
          (⌊min pL.y pR.y⌋ + ⌊min ((l.height : ℚ) - pL.y) ((r.height : ℚ) - pR.y)⌋)
          r ⌊pR.x - (⌊min pL.x pR.x⌋ : ℚ)⌋ ⌊pR.y - (⌊min pL.y pR.y⌋ : ℚ)⌋ ∧
    ⌊pL.x⌋ - ⌊pL.x - (⌊min pL.x pR.x⌋ : ℚ)⌋ = ⌊min pL.x pR.x⌋ ∧
    ⌊pR.x⌋ - ⌊pR.x - (⌊min pL.x pR.x⌋ : ℚ)⌋ = ⌊min pL.x pR.x⌋ ∧
    ⌊pL.y⌋ - ⌊pL.y - (⌊min pL.y pR.y⌋ : ℚ)⌋ = ⌊min pL.y pR.y⌋ ∧
    ⌊pR.y⌋ - ⌊pR.y - (⌊min pL.y pR.y⌋ : ℚ)⌋ = ⌊min pL.y pR.y⌋ := by
  refine ⟨rfl, rfl, rfl, rfl, rfl, rfl, ?_, ?_, ?_, ?_⟩ <;>
    rw [Int.floor_sub_int] <;> ring

/-- The pipeline state of src/App.tsx: the `useState` fields of the `App` component,
together with the allocation counter `nextAlloc` for fresh canvases and the log of
`window.alert` messages. -/
structure AppState where
  step : AppStep
  srcL : Option Canvas
  srcR : Option Canvas
  canvasL : Option Canvas
  canvasR : Option Canvas
  pointsL : List Point
  pointsR : List Point
  pointHistory : List Side
  options : ProcessingOptions
  resultCanvas : Option Canvas
  nextAlloc : ℕ
  alerts : List String

/-- App.tsx `handleAddPoint`. -/
def handleAddPoint (side : Side) (p : Point) (s : AppState) : AppState :=
  match side with
  | .left => { s with pointsL := s.pointsL ++ [p], pointHistory := s.pointHistory ++ [side] }
  | .right => { s with pointsR := s.pointsR ++ [p], pointHistory := s.pointHistory ++ [side] }

/-- App.tsx `undoLastPoint`: inspect the last history tag and pop one point from the
corresponding side. -/
def undoLastPoint (s : AppState) : AppState :=
  match s.pointHistory.getLast? with
  | none => s
  | some Side.left =>
      { s with pointHistory := s.pointHistory.dropLast, pointsL := s.pointsL.dropLast }
  | some Side.right =>
      { s with pointHistory := s.pointHistory.dropLast, pointsR := s.pointsR.dropLast }

/-- App.tsx `clearPoints`. -/
def clearPoints (s : AppState) : AppState :=
  { s with pointsL := [], pointsR := [], pointHistory := [] }

/-- App.tsx `startProcessing`. -/
def startProcessing (s : AppState) : AppState :=
  match s.srcL, s.srcR with
  | some l, some r =>
    if s.options.assumeEqualFraming then
      { s with resultCanvas := some (mergeSideBySide s.nextAlloc l r),
               step := AppStep.RESULT, nextAlloc := s.nextAlloc + 1 }
    else
      clearPoints
        { s with step :=
            if s.options.assumeEqualTilt then
              if s.options.assumeEqualZoom then AppStep.CROP else AppStep.SCALE
            else AppStep.ROTATE }
  | _, _ => s

/-- The angle of the first two left points (App.tsx `applyRotation`, `angleL`). -/
noncomputable def angleLOf (s : AppState) : ℝ :=
  calculateAngle (s.pointsL.getD 0 ⟨0, 0⟩) (s.pointsL.getD 1 ⟨0, 0⟩)

/-- The angle of the first two right points (App.tsx `applyRotation`, `angleR`). -/
noncomputable def angleROf (s : AppState) : ℝ :=
  calculateAngle (s.pointsR.getD 0 ⟨0, 0⟩) (s.pointsR.getD 1 ⟨0, 0⟩)

/-- App.tsx `applyRotation`. -/
noncomputable def applyRotation (s : AppState) : AppState :=
  match s.canvasL, s.canvasR with
  | some cL, some cR =>
    if s.pointsL.length < 2 ∨ s.pointsR.length < 2 then s
    else
      let s1 :=
        if s.options.rotateLeftImage then
          { s with canvasL := some (rotateImage s.nextAlloc cL (angleROf s - angleLOf s)),
                   nextAlloc := s.nextAlloc + 1 }
        else
          { s with canvasR := some (rotateImage s.nextAlloc cR (angleLOf s - angleROf s)),
                   nextAlloc := s.nextAlloc + 1 }
      let s2 := clearPoints s1
      { s2 with step := if s.options.assumeEqualZoom then AppStep.CROP else AppStep.SCALE }
  | _, _ => s

/-- App.tsx `applyScaling`, `hL`: vertical distance of the two left points. -/
def vertDistL (s : AppState) : ℚ :=
  |(s.pointsL.getD 0 ⟨0, 0⟩).y - (s.pointsL.getD 1 ⟨0, 0⟩).y|

/-- App.tsx `applyScaling`, `hR`: vertical distance of the two right points. -/
def vertDistR (s : AppState) : ℚ :=
  |(s.pointsR.getD 0 ⟨0, 0⟩).y - (s.pointsR.getD 1 ⟨0, 0⟩).y|

/-- App.tsx `applyScaling`, `ratio = hL / hR`. -/
def scaleRatioOf (s : AppState) : ℚ := vertDistL s / vertDistR s

/-- App.tsx `applyScaling`. -/
def applyScaling (s : AppState) : AppState :=
  match s.canvasL, s.canvasR with
  | some _, some cR =>
    if s.pointsL.length < 2 ∨ s.pointsR.length < 2 then s
    else if vertDistL s = 0 ∨ vertDistR s = 0 then
      { s with alerts := s.alerts ++ ["Vertical distance cannot be zero!"] }
    else
      let s1 := { s with canvasR := some (scaleImage s.nextAlloc cR (scaleRatioOf s)),
                         nextAlloc := s.nextAlloc + 1 }
      let s2 := clearPoints s1
      { s2 with step := AppStep.CROP }
  | _, _ => s

/-- App.tsx `applyCropping`.  Note: the source does not call `clearPoints` here. -/
def applyCropping (s : AppState) : AppState :=
  match s.canvasL, s.canvasR with
  | some cL, some cR =>
    if s.pointsL.length < 1 ∨ s.pointsR.length < 1 then s
    else
      let lr := cropImagesAligned s.nextAlloc cL cR (s.pointsL.getD 0 ⟨0, 0⟩)
                  (s.pointsR.getD 0 ⟨0, 0⟩) s.options.assumeEqualZoom
      { s with canvasL := some lr.1, canvasR := some lr.2,
               resultCanvas := some (mergeSideBySide (s.nextAlloc + 2) lr.1 lr.2),
               step := AppStep.RESULT, nextAlloc := s.nextAlloc + 3 }
  | _, _ => s

/-- C2: from `UPLOAD` with both images loaded, `startProcessing` goes to `RESULT`
(composing the two source images directly, with no correction) if `assumeEqualFraming`,
else to `CROP` if `assumeEqualTilt ∧ assumeEqualZoom`, else to `SCALE` if only
`assumeEqualTilt`, else to `ROTATE` — for all 8 option combinations. -/
theorem startProcessing_routes (s : AppState) (l r : Canvas)
    (_hstep : s.step = AppStep.UPLOAD)
    (hl : s.srcL = some l) (hr : s.srcR = some r) :
    (startProcessing s).step =
      (if s.options.assumeEqualFraming then AppStep.RESULT
       else if s.options.assumeEqualTilt then
         if s.options.assumeEqualZoom then AppStep.CROP else AppStep.SCALE
       else AppStep.ROTATE) ∧
    (s.options.assumeEqualFraming = true →
      (startProcessing s).resultCanvas = some (mergeSideBySide s.nextAlloc l r) ∧
      (startProcessing s).canvasL = s.canvasL ∧
      (startProcessing s).canvasR = s.canvasR) := by
  cases hf : s.options.assumeEqualFraming <;>
    simp [startProcessing, hl, hr, hf, clearPoints]

/-- The left source image of the concrete witness states. -/
def imgL : Canvas := Canvas.uploaded 0 100 80

/-- The right source image of the concrete witness states. -/
def imgR : Canvas := Canvas.uploaded 1 120 100

/-- A concrete state at `UPLOAD` with both images loaded and `assumeEqualFraming` set. -/
def stateC2 : AppState :=
  { step := AppStep.UPLOAD, srcL := some imgL, srcR := some imgR,
    canvasL := some imgL, canvasR := some imgR,
    pointsL := [], pointsR := [], pointHistory := [],
    options := { assumeEqualTilt := false, assumeEqualZoom := false,
                 assumeEqualFraming := true, rotateLeftImage := false },
    resultCanvas := none, nextAlloc := 2, alerts := [] }

/-- Witness for C2 at a concrete state: equal framing jumps straight to `RESULT` with the
two sources composed unchanged. -/
theorem startProcessing_routes_witness :
    stateC2.step = AppStep.UPLOAD ∧
    (startProcessing stateC2).step = AppStep.RESULT ∧
    (startProcessing stateC2).resultCanvas = some (mergeSideBySide 2 imgL imgR) := by
  have h := startProcessing_routes stateC2 imgL imgR rfl rfl rfl
  exact ⟨rfl, h.1, (h.2 rfl).1⟩

/-- The rotation stage's apply precondition: both working buffers present and at least
two points per side (the guard of App.tsx `applyRotation`, also used by `applyScaling`). -/
def canApplyRotationP (s : AppState) : Prop :=
  s.canvasL.isSome ∧ s.canvasR.isSome ∧ 2 ≤ s.pointsL.length ∧ 2 ≤ s.pointsR.length

/-- The scale stage's full success condition: the guard plus nonzero vertical distances. -/
def canApplyScalingP (s : AppState) : Prop :=
  canApplyRotationP s ∧ vertDistL s ≠ 0 ∧ vertDistR s ≠ 0

/-- The crop stage's apply precondition: both working buffers present and at least one
point per side. -/
def canApplyCroppingP (s : AppState) : Prop :=
  s.canvasL.isSome ∧ s.canvasR.isSome ∧ 1 ≤ s.pointsL.length ∧ 1 ≤ s.pointsR.length

instance (s : AppState) : Decidable (canApplyRotationP s) := by
  unfold canApplyRotationP; infer_instance

instance (s : AppState) : Decidable (canApplyScalingP s) := by
  unfold canApplyScalingP canApplyRotationP; infer_instance

instance (s : AppState) : Decidable (canApplyCroppingP s) := by
  unfold canApplyCroppingP; infer_instance

/-- Both point sets and the shared history are empty. -/
def collectorCleared (s : AppState) : Prop :=
  s.pointsL = [] ∧ s.pointsR = [] ∧ s.pointHistory = []

/-- The point sets and history of `t` are those of `s`. -/
def collectorUnchanged (s t : AppState) : Prop :=
  t.pointsL = s.pointsL ∧ t.pointsR = s.pointsR ∧ t.pointHistory = s.pointHistory

/-- Everything a stage apply could touch is unchanged between `s` and `t`
(working buffers, points, history, stage, result). -/
def coreUnchanged (s t : AppState) : Prop :=
  t.canvasL = s.canvasL ∧ t.canvasR = s.canvasR ∧ collectorUnchanged s t ∧
  t.step = s.step ∧ t.resultCanvas = s.resultCanvas

lemma applyRotation_eq_of_can (s : AppState) (cL cR : Canvas)
    (hL : s.canvasL = some cL) (hR : s.canvasR = some cR)
    (h2 : 2 ≤ s.pointsL.length) (h3 : 2 ≤ s.pointsR.length) :
    applyRotation s =
      { s with
        canvasL := if s.options.rotateLeftImage then
            some (rotateImage s.nextAlloc cL (angleROf s - angleLOf s)) else s.canvasL,
        canvasR := if s.options.rotateLeftImage then s.canvasR
            else some (rotateImage s.nextAlloc cR (angleLOf s - angleROf s)),
        nextAlloc := s.nextAlloc + 1,
        pointsL := [], pointsR := [], pointHistory := [],
        step := if s.options.assumeEqualZoom then AppStep.CROP else AppStep.SCALE } := by
  have hguard : ¬ (s.pointsL.length < 2 ∨ s.pointsR.length < 2) := by omega
  cases hrot : s.options.rotateLeftImage <;>
    simp [applyRotation, hL, hR, hguard, hrot, clearPoints]

lemma applyRotation_eq_of_not (s : AppState) (h : ¬ canApplyRotationP s) :
    applyRotation s = s := by
  unfold canApplyRotationP at h
  cases hL : s.canvasL with
  | none => simp [applyRotation, hL]
  | some cL =>
    cases hR : s.canvasR with
    | none => simp [applyRotation, hL, hR]
    | some cR =>
      have hguard : s.pointsL.length < 2 ∨ s.pointsR.length < 2 := by
        simp [hL, hR] at h; omega
      simp [applyRotation, hL, hR, hguard]

lemma applyScaling_eq_of_can (s : AppState) (cL cR : Canvas)
    (hL : s.canvasL = some cL) (hR : s.canvasR = some cR)
    (h2 : 2 ≤ s.pointsL.length) (h3 : 2 ≤ s.pointsR.length)
    (hdL : vertDistL s ≠ 0) (hdR : vertDistR s ≠ 0) :
    applyScaling s =
      { s with
        canvasR := some (scaleImage s.nextAlloc cR (scaleRatioOf s)),
        nextAlloc := s.nextAlloc + 1,
        pointsL := [], pointsR := [], pointHistory := [],
        step := AppStep.CROP } := by
  have hguard : ¬ (s.pointsL.length < 2 ∨ s.pointsR.length < 2) := by omega
  have hdeg : ¬ (vertDistL s = 0 ∨ vertDistR s = 0) := by tauto
  simp [applyScaling, hL, hR, hguard, hdeg, clearPoints]

lemma applyScaling_eq_degenerate (s : AppState) (cL cR : Canvas)
    (hL : s.canvasL = some cL) (hR : s.canvasR = some cR)
    (h2 : 2 ≤ s.pointsL.length) (h3 : 2 ≤ s.pointsR.length)
    (hdeg : vertDistL s = 0 ∨ vertDistR s = 0) :
    applyScaling s = { s with alerts := s.alerts ++ ["Vertical distance cannot be zero!"] } := by
  have hguard : ¬ (s.pointsL.length < 2 ∨ s.pointsR.length < 2) := by omega
  simp [applyScaling, hL, hR, hguard, hdeg]

lemma applyScaling_eq_of_not_guard (s : AppState) (h : ¬ canApplyRotationP s) :
    applyScaling s = s := by
  unfold canApplyRotationP at h
  cases hL : s.canvasL with
  | none => simp [applyScaling, hL]
  | some cL =>
    cases hR : s.canvasR with
    | none => simp [applyScaling, hL, hR]
    | some cR =>
      have hguard : s.pointsL.length < 2 ∨ s.pointsR.length < 2 := by
        simp [hL, hR] at h; omega
      simp [applyScaling, hL, hR, hguard]

lemma applyCropping_eq_of_can (s : AppState) (cL cR : Canvas)
    (hL : s.canvasL = some cL) (hR : s.canvasR = some cR)
    (h1 : 1 ≤ s.pointsL.length) (h2 : 1 ≤ s.pointsR.length) :
    applyCropping s =
      { s with
        canvasL := some (cropImagesAligned s.nextAlloc cL cR (s.pointsL.getD 0 ⟨0, 0⟩)
            (s.pointsR.getD 0 ⟨0, 0⟩) s.options.assumeEqualZoom).1,
        canvasR := some (cropImagesAligned s.nextAlloc cL cR (s.pointsL.getD 0 ⟨0, 0⟩)
            (s.pointsR.getD 0 ⟨0, 0⟩) s.options.assumeEqualZoom).2,
        resultCanvas := some (mergeSideBySide (s.nextAlloc + 2)
            (cropImagesAligned s.nextAlloc cL cR (s.pointsL.getD 0 ⟨0, 0⟩)
              (s.pointsR.getD 0 ⟨0, 0⟩) s.options.assumeEqualZoom).1
            (cropImagesAligned s.nextAlloc cL cR (s.pointsL.getD 0 ⟨0, 0⟩)
              (s.pointsR.getD 0 ⟨0, 0⟩) s.options.assumeEqualZoom).2),
        step := AppStep.RESULT, nextAlloc := s.nextAlloc + 3 } := by
  have hguard : ¬ (s.pointsL.length < 1 ∨ s.pointsR.length < 1) := by omega
  simp only [applyCropping, hL, hR]
  rw [if_neg hguard]

lemma applyCropping_eq_of_not (s : AppState) (h : ¬ canApplyCroppingP s) :
    applyCropping s = s := by
  unfold canApplyCroppingP at h
  cases hL : s.canvasL with
  | none => simp [applyCropping, hL]
  | some cL =>
    cases hR : s.canvasR with
    | none => simp [applyCropping, hL, hR]
    | some cR =>
      have hguard : s.pointsL.length < 1 ∨ s.pointsR.length < 1 := by
        rcases Nat.lt_or_ge s.pointsL.length 1 with h1 | h1
        · exact Or.inl h1
        · rcases Nat.lt_or_ge s.pointsR.length 1 with h2 | h2
          · exact Or.inr h2
          · exact absurd ⟨by simp [hL], by simp [hR], h1, h2⟩ h
      simp only [applyCropping, hL, hR]
      rw [if_pos hguard]

/-- C3 (amended): a successful ROTATE or SCALE apply stores the freshly computed working
pair, clears both point sets together with the history, and advances the stage; a
successful CROP apply stores the cropped pair and the merged result and advances to
`RESULT` but leaves the point collector untouched (the source has no `clearPoints` call
there); a failed apply changes nothing (the degenerate-scale path touches only the alert
log). -/
theorem stage_apply_atomic (s : AppState) :
    (canApplyRotationP s →
       collectorCleared (applyRotation s) ∧
       (applyRotation s).step =
         (if s.options.assumeEqualZoom then AppStep.CROP else AppStep.SCALE) ∧
       (if s.options.rotateLeftImage then
          (applyRotation s).canvasL =
            Option.map (fun c => rotateImage s.nextAlloc c (angleROf s - angleLOf s))
              s.canvasL ∧
          (applyRotation s).canvasR = s.canvasR
        else
          (applyRotation s).canvasR =
            Option.map (fun c => rotateImage s.nextAlloc c (angleLOf s - angleROf s))
              s.canvasR ∧
          (applyRotation s).canvasL = s.canvasL)) ∧
    (¬ canApplyRotationP s → applyRotation s = s) ∧
    (canApplyScalingP s →
       collectorCleared (applyScaling s) ∧
       (applyScaling s).step = AppStep.CROP ∧
       (applyScaling s).canvasL = s.canvasL ∧
       (applyScaling s).canvasR =
         Option.map (fun c => scaleImage s.nextAlloc c (scaleRatioOf s)) s.canvasR) ∧
    (¬ canApplyScalingP s → coreUnchanged s (applyScaling s)) ∧
    (canApplyCroppingP s →
       (applyCropping s).step = AppStep.RESULT ∧
       collectorUnchanged s (applyCropping s) ∧
       ∃ cL cR, s.canvasL = some cL ∧ s.canvasR = some cR ∧
         (applyCropping s).canvasL =
           some (cropImagesAligned s.nextAlloc cL cR (s.pointsL.getD 0 ⟨0, 0⟩)
             (s.pointsR.getD 0 ⟨0, 0⟩) s.options.assumeEqualZoom).1 ∧
         (applyCropping s).canvasR =
           some (cropImagesAligned s.nextAlloc cL cR (s.pointsL.getD 0 ⟨0, 0⟩)
             (s.pointsR.getD 0 ⟨0, 0⟩) s.options.assumeEqualZoom).2 ∧
         (applyCropping s).resultCanvas =
           some (mergeSideBySide (s.nextAlloc + 2)
             (cropImagesAligned s.nextAlloc cL cR (s.pointsL.getD 0 ⟨0, 0⟩)
               (s.pointsR.getD 0 ⟨0, 0⟩) s.options.assumeEqualZoom).1
             (cropImagesAligned s.nextAlloc cL cR (s.pointsL.getD 0 ⟨0, 0⟩)
               (s.pointsR.getD 0 ⟨0, 0⟩) s.options.assumeEqualZoom).2)) ∧
    (¬ canApplyCroppingP s → applyCropping s = s) := by
  refine ⟨?_, applyRotation_eq_of_not s, ?_, ?_, ?_, applyCropping_eq_of_not s⟩
  · rintro ⟨h1, h2, h3, h4⟩
    obtain ⟨cL, hL⟩ := Option.isSome_iff_exists.mp h1
    obtain ⟨cR, hR⟩ := Option.isSome_iff_exists.mp h2
    rw [applyRotation_eq_of_can s cL cR hL hR h3 h4]
    refine ⟨⟨rfl, rfl, rfl⟩, rfl, ?_⟩
    cases hrot : s.options.rotateLeftImage <;> simp [hrot, hL, hR]
  · rintro ⟨⟨h1, h2, h3, h4⟩, hdL, hdR⟩
    obtain ⟨cL, hL⟩ := Option.isSome_iff_exists.mp h1
    obtain ⟨cR, hR⟩ := Option.isSome_iff_exists.mp h2
    rw [applyScaling_eq_of_can s cL cR hL hR h3 h4 hdL hdR]
    exact ⟨⟨rfl, rfl, rfl⟩, rfl, rfl, by simp [hR]⟩
  · intro hns
    by_cases hcan : canApplyRotationP s
    · obtain ⟨h1, h2, h3, h4⟩ := hcan
      obtain ⟨cL, hL⟩ := Option.isSome_iff_exists.mp h1
      obtain ⟨cR, hR⟩ := Option.isSome_iff_exists.mp h2
      have hdeg : vertDistL s = 0 ∨ vertDistR s = 0 := by
        by_contra hc
        push_neg at hc
        exact hns ⟨⟨h1, h2, h3, h4⟩, hc.1, hc.2⟩
      rw [applyScaling_eq_degenerate s cL cR hL hR h3 h4 hdeg]
      exact ⟨rfl, rfl, ⟨rfl, rfl, rfl⟩, rfl, rfl⟩
    · rw [applyScaling_eq_of_not_guard s hcan]
      exact ⟨rfl, rfl, ⟨rfl, rfl, rfl⟩, rfl, rfl⟩
  · rintro ⟨h1, h2, h3, h4⟩
    obtain ⟨cL, hL⟩ := Option.isSome_iff_exists.mp h1
    obtain ⟨cR, hR⟩ := Option.isSome_iff_exists.mp h2
    rw [applyCropping_eq_of_can s cL cR hL hR h3 h4]
    exact ⟨rfl, ⟨rfl, rfl, rfl⟩, cL, cR, hL, hR, rfl, rfl, rfl⟩

/-- A concrete state in the CROP stage with one anchor point per side. -/
def stateC3 : AppState :=
  { step := AppStep.CROP, srcL := some imgL, srcR := some imgR,
    canvasL := some imgL, canvasR := some imgR,
    pointsL := [⟨40, 50⟩], pointsR := [⟨50, 50⟩],
    pointHistory := [Side.left, Side.right],
    options := { assumeEqualTilt := true, assumeEqualZoom := true,
                 assumeEqualFraming := false, rotateLeftImage := false },
    resultCanvas := none, nextAlloc := 2, alerts := [] }

/-- C3 counterexample: a successful CROP apply advances to `RESULT` but does not clear
the point sets or the history, contradicting the claim that the CROP apply clears the
point collector before entering RESULT. -/
theorem applyCropping_no_clear_cex :
    (applyCropping stateC3).step = AppStep.RESULT ∧
    (applyCropping stateC3).pointsL = [⟨40, 50⟩] ∧
    (applyCropping stateC3).pointsR = [⟨50, 50⟩] ∧
    (applyCropping stateC3).pointHistory = [Side.left, Side.right] := by
  decide

/-- Witness for C3 (amended) at a concrete CROP state. -/
theorem stage_apply_atomic_witness :
    canApplyCroppingP stateC3 ∧
    (applyCropping stateC3).step = AppStep.RESULT ∧
    collectorUnchanged stateC3 (applyCropping stateC3) := by
  have h := (stage_apply_atomic stateC3).2.2.2.2.1 (by decide)
  exact ⟨by decide, h.1, h.2.1⟩

/-- A concrete state in the ROTATE stage with two points per side and
`rotateLeftImage = false`. -/
def stateC4 : AppState :=
  { step := AppStep.ROTATE, srcL := some imgL, srcR := some imgR,
    canvasL := some imgL, canvasR := some imgR,
    pointsL := [⟨0, 0⟩, ⟨10, 0⟩], pointsR := [⟨0, 0⟩, ⟨10, 1⟩],
    pointHistory := [Side.left, Side.left, Side.right, Side.right],
    options := { assumeEqualTilt := false, assumeEqualZoom := false,
                 assumeEqualFraming := false, rotateLeftImage := false },
    resultCanvas := none, nextAlloc := 2, alerts := [] }

/-- C4 counterexample: in a successful rotation apply with `rotateLeftImage = false`, the
non-rotated (left) side is passed through as the very same buffer object — same `Option`
value, in particular the same allocation identity — contradicting the claim that it is a
new buffer distinct from the input object. -/
theorem applyRotation_passthrough_cex :
    (applyRotation stateC4).step = AppStep.SCALE ∧
    (applyRotation stateC4).canvasL = stateC4.canvasL ∧
    Option.map Canvas.alloc ((applyRotation stateC4).canvasL) =
      Option.map Canvas.alloc stateC4.canvasL := by
  have h := applyRotation_eq_of_can stateC4 imgL imgR rfl rfl (by decide) (by decide)
  rw [h]
  exact ⟨rfl, rfl, rfl⟩

/-- C4 (amended): with at least two points per side, if `rotateLeftImage` is true exactly
the left image is rotated by (angle of right − angle of left), otherwise exactly the
right image is rotated by (angle of left − angle of right); the other side passes through
unchanged, as the same buffer object (not a fresh copy). -/
theorem applyRotation_spec (s : AppState) (cL cR : Canvas)
    (hL : s.canvasL = some cL) (hR : s.canvasR = some cR)
    (h2 : 2 ≤ s.pointsL.length) (h3 : 2 ≤ s.pointsR.length) :
    (s.options.rotateLeftImage = true →
       (applyRotation s).canvasL =
         some (rotateImage s.nextAlloc cL (angleROf s - angleLOf s)) ∧
       (applyRotation s).canvasR = s.canvasR) ∧
    (s.options.rotateLeftImage = false →
       (applyRotation s).canvasR =
         some (rotateImage s.nextAlloc cR (angleLOf s - angleROf s)) ∧
       (applyRotation s).canvasL = s.canvasL) := by
  rw [applyRotation_eq_of_can s cL cR hL hR h2 h3]
  constructor <;> intro hrot <;> simp [hrot]

/-- The state `stateC4` with `rotateLeftImage` selected instead. -/
def stateC4W : AppState :=
  { stateC4 with
    options := { assumeEqualTilt := false, assumeEqualZoom := false,
                 assumeEqualFraming := false, rotateLeftImage := true },
    nextAlloc := 5 }

/-- Witness for C4 (amended) at a concrete state with `rotateLeftImage = true`. -/
theorem applyRotation_spec_witness :
    stateC4W.options.rotateLeftImage = true ∧
    (applyRotation stateC4W).canvasL =
      some (rotateImage 5 imgL (angleROf stateC4W - angleLOf stateC4W)) ∧
    (applyRotation stateC4W).canvasR = stateC4W.canvasR := by
  have h := (applyRotation_spec stateC4W imgL imgR rfl rfl (by decide) (by decide)).1 rfl
  exact ⟨rfl, h.1, h.2⟩

/-- The `canvas.width` of an optional canvas (0 when absent). -/
def widthO : Option Canvas → ℤ
  | none => 0
  | some c => c.width

/-- C5 (amended): a successful scale apply uses ratio `|Δy left| / |Δy right|`, scales
only the right image (the left buffer is unchanged), and advances to CROP; the scaled
output has dimensions `⌈w·ratio⌉ × ⌈h·ratio⌉` except when `|ratio − 1| < 0.001`, in
which case `scaleImage` returns a fresh copy with the source's own dimensions. -/
theorem applyScaling_spec (s : AppState) (cL cR : Canvas)
    (hL : s.canvasL = some cL) (hR : s.canvasR = some cR)
    (h2 : 2 ≤ s.pointsL.length) (h3 : 2 ≤ s.pointsR.length)
    (hdL : vertDistL s ≠ 0) (hdR : vertDistR s ≠ 0) :
    scaleRatioOf s = vertDistL s / vertDistR s ∧
    (applyScaling s).canvasL = s.canvasL ∧
    (applyScaling s).canvasR = some (scaleImage s.nextAlloc cR (scaleRatioOf s)) ∧
    (scaleImage s.nextAlloc cR (scaleRatioOf s)).width =
      (if |scaleRatioOf s - 1| < 0.001 then cR.width
       else ⌈(cR.width : ℚ) * scaleRatioOf s⌉) ∧
    (scaleImage s.nextAlloc cR (scaleRatioOf s)).height =
      (if |scaleRatioOf s - 1| < 0.001 then cR.height
       else ⌈(cR.height : ℚ) * scaleRatioOf s⌉) ∧
    (applyScaling s).step = AppStep.CROP := by
  rw [applyScaling_eq_of_can s cL cR hL hR h2 h3 hdL hdR]
  refine ⟨rfl, rfl, rfl, ?_, ?_, rfl⟩ <;>
    · simp only [scaleImage, cloneCanvas]
      split <;> simp [Canvas.width, Canvas.height]

/-- A concrete SCALE state whose ratio 2001/2000 falls inside `scaleImage`'s epsilon. -/
def stateC5 : AppState :=
  { step := AppStep.SCALE, srcL := some imgL,
    srcR := some (Canvas.uploaded 1 10000 10000),
    canvasL := some imgL, canvasR := some (Canvas.uploaded 1 10000 10000),
    pointsL := [⟨0, 0⟩, ⟨0, 2001⟩], pointsR := [⟨0, 0⟩, ⟨0, 2000⟩],
    pointHistory := [Side.left, Side.left, Side.right, Side.right],
    options := { assumeEqualTilt := true, assumeEqualZoom := false,
                 assumeEqualFraming := false, rotateLeftImage := false },
    resultCanvas := none, nextAlloc := 2, alerts := [] }

/-- C5 counterexample: with nonzero vertical distances 2001 and 2000 the ratio is
2001/2000, which is within 0.001 of 1, so `scaleImage` clones and the output width stays
10000 — not `⌈10000 · 2001/2000⌉ = 10005` as the claim requires. -/
theorem applyScaling_eps_cex :
    vertDistL stateC5 = 2001 ∧ vertDistR stateC5 = 2000 ∧
    scaleRatioOf stateC5 = 2001 / 2000 ∧
    widthO ((applyScaling stateC5).canvasR) = 10000 ∧
    (⌈(widthO stateC5.canvasR : ℚ) * scaleRatioOf stateC5⌉ : ℤ) = 10005 ∧
    widthO ((applyScaling stateC5).canvasR) ≠
      ⌈(widthO stateC5.canvasR : ℚ) * scaleRatioOf stateC5⌉ := by
  have hdL : vertDistL stateC5 = 2001 := by norm_num [vertDistL, stateC5]
  have hdR : vertDistR stateC5 = 2000 := by norm_num [vertDistR, stateC5]
  have hratio : scaleRatioOf stateC5 = 2001 / 2000 := by
    rw [scaleRatioOf, hdL, hdR]
  have heps : |scaleRatioOf stateC5 - 1| < (0.001 : ℚ) := by
    rw [hratio]
    have h1 : (2001 : ℚ) / 2000 - 1 = 1 / 2000 := by norm_num
    rw [h1, abs_of_nonneg (by norm_num : (0 : ℚ) ≤ 1 / 2000)]
    norm_num
  have happ := applyScaling_eq_of_can stateC5 imgL (Canvas.uploaded 1 10000 10000)
    rfl rfl (by decide) (by decide) (by rw [hdL]; norm_num) (by rw [hdR]; norm_num)
  have hw : widthO ((applyScaling stateC5).canvasR) = 10000 := by
    rw [happ]
    simp only [widthO, scaleImage]
    rw [if_pos heps]
    norm_num [cloneCanvas, Canvas.width]
  have hceil : (⌈(widthO stateC5.canvasR : ℚ) * scaleRatioOf stateC5⌉ : ℤ) = 10005 := by
    rw [hratio]
    show (⌈((10000 : ℤ) : ℚ) * (2001 / 2000)⌉ : ℤ) = 10005
    push_cast
    norm_num
  refine ⟨hdL, hdR, hratio, hw, hceil, ?_⟩
  rw [hw, hceil]
  norm_num

/-- A concrete SCALE state realising the spec's ratio-0.5 example. -/
def stateC5W : AppState :=
  { step := AppStep.SCALE, srcL := some imgL,
    srcR := some (Canvas.uploaded 1 100 50),
    canvasL := some imgL, canvasR := some (Canvas.uploaded 1 100 50),
    pointsL := [⟨0, 0⟩, ⟨0, 10⟩], pointsR := [⟨0, 0⟩, ⟨0, 20⟩],
    pointHistory := [Side.left, Side.left, Side.right, Side.right],
    options := { assumeEqualTilt := true, assumeEqualZoom := false,
                 assumeEqualFraming := false, rotateLeftImage := false },
    resultCanvas := none, nextAlloc := 7, alerts := [] }

/-- Witness for C5 (amended): left points (0,0)-(0,10) and right points (0,0)-(0,20)
give ratio 1/2, the right image is scaled to 50 × 25 and the stage advances to CROP. -/
theorem applyScaling_spec_witness :
    scaleRatioOf stateC5W = 1 / 2 ∧
    (applyScaling stateC5W).canvasL = stateC5W.canvasL ∧
    (applyScaling stateC5W).canvasR =
      some (scaleImage 7 (Canvas.uploaded 1 100 50) (scaleRatioOf stateC5W)) ∧
    (scaleImage 7 (Canvas.uploaded 1 100 50) (scaleRatioOf stateC5W)).width = 50 ∧
    (scaleImage 7 (Canvas.uploaded 1 100 50) (scaleRatioOf stateC5W)).height = 25 ∧
    (applyScaling stateC5W).step = AppStep.CROP := by
  have hdL : vertDistL stateC5W = 10 := by norm_num [vertDistL, stateC5W]
  have hdR : vertDistR stateC5W = 20 := by norm_num [vertDistR, stateC5W]
  have hratio : scaleRatioOf stateC5W = 1 / 2 := by
    rw [scaleRatioOf, hdL, hdR]; norm_num
  have hneps : ¬ |scaleRatioOf stateC5W - 1| < (0.001 : ℚ) := by
    rw [hratio]
    have h1 : (1 : ℚ) / 2 - 1 = -(1 / 2) := by norm_num
    rw [h1, abs_neg, abs_of_nonneg (by norm_num : (0 : ℚ) ≤ 1 / 2)]
    norm_num
  have h := applyScaling_spec stateC5W imgL (Canvas.uploaded 1 100 50) rfl rfl
    (by decide) (by decide) (by rw [hdL]; norm_num) (by rw [hdR]; norm_num)
  refine ⟨hratio, h.2.1, h.2.2.1, ?_, ?_, h.2.2.2.2.2⟩
  · show (scaleImage stateC5W.nextAlloc (Canvas.uploaded 1 100 50)
      (scaleRatioOf stateC5W)).width = 50
    rw [h.2.2.2.1, if_neg hneps, hratio]
    show (⌈((100 : ℤ) : ℚ) * (1 / 2)⌉ : ℤ) = 50
    push_cast
    norm_num
  · show (scaleImage stateC5W.nextAlloc (Canvas.uploaded 1 100 50)
      (scaleRatioOf stateC5W)).height = 25
    rw [h.2.2.2.2.1, if_neg hneps, hratio]
    show (⌈((50 : ℤ) : ℚ) * (1 / 2)⌉ : ℤ) = 25
    push_cast
    norm_num

/-- C6: a scale apply with two points per side but a zero vertical distance on either
side raises the user-visible alert, changes neither working buffer, leaves the point sets
and history untouched, and stays in the SCALE stage. -/
theorem applyScaling_degenerate (s : AppState) (cL cR : Canvas)
    (hL : s.canvasL = some cL) (hR : s.canvasR = some cR)
    (h2 : 2 ≤ s.pointsL.length) (h3 : 2 ≤ s.pointsR.length)
    (hstep : s.step = AppStep.SCALE)
    (hdeg : vertDistL s = 0 ∨ vertDistR s = 0) :
    (applyScaling s).alerts = s.alerts ++ ["Vertical distance cannot be zero!"] ∧
    (applyScaling s).canvasL = s.canvasL ∧
    (applyScaling s).canvasR = s.canvasR ∧
    (applyScaling s).pointsL = s.pointsL ∧
    (applyScaling s).pointsR = s.pointsR ∧
    (applyScaling s).pointHistory = s.pointHistory ∧
    (applyScaling s).step = AppStep.SCALE ∧
    (applyScaling s).resultCanvas = s.resultCanvas := by
  rw [applyScaling_eq_degenerate s cL cR hL hR h2 h3 hdeg]
  exact ⟨rfl, rfl, rfl, rfl, rfl, rfl, hstep, rfl⟩

/-- A concrete SCALE state with coincident right points (0,5)-(0,5). -/
def stateC6 : AppState :=
  { step := AppStep.SCALE, srcL := some imgL, srcR := some imgR,
    canvasL := some imgL, canvasR := some imgR,
    pointsL := [⟨0, 0⟩, ⟨0, 10⟩], pointsR := [⟨0, 5⟩, ⟨0, 5⟩],
    pointHistory := [Side.left, Side.left, Side.right, Side.right],
    options := { assumeEqualTilt := true, assumeEqualZoom := false,
                 assumeEqualFraming := false, rotateLeftImage := false },
    resultCanvas := none, nextAlloc := 2, alerts := [] }

/-- Witness for C6: right points (0,5)-(0,5) have zero vertical distance, so the alert is
raised, the buffers are untouched, and the stage remains SCALE. -/
theorem applyScaling_degenerate_witness :
    vertDistR stateC6 = 0 ∧
    (applyScaling stateC6).alerts = ["Vertical distance cannot be zero!"] ∧
    (applyScaling stateC6).canvasL = stateC6.canvasL ∧
    (applyScaling stateC6).canvasR = stateC6.canvasR ∧
    (applyScaling stateC6).pointsR = stateC6.pointsR ∧
    (applyScaling stateC6).step = AppStep.SCALE := by
  have hdR : vertDistR stateC6 = 0 := by norm_num [vertDistR, stateC6]
  have h := applyScaling_degenerate stateC6 imgL imgR rfl rfl (by decide) (by decide)
    rfl (Or.inr hdR)
  exact ⟨hdR, h.1, h.2.1, h.2.2.1, h.2.2.2.2.1, h.2.2.2.2.2.2.1⟩

/-- The number of occurrences of a side tag in a history list. -/
def countSide (sd : Side) : List Side → ℕ
  | [] => 0
  | a :: t => (if a = sd then 1 else 0) + countSide sd t

lemma countSide_append (sd : Side) (l1 l2 : List Side) :
    countSide sd (l1 ++ l2) = countSide sd l1 + countSide sd l2 := by
  induction l1 with
  | nil => simp [countSide]
  | cons a t ih => simp [countSide, ih]; ring

lemma countSide_total (l : List Side) :
    countSide Side.left l + countSide Side.right l = l.length := by
  induction l with
  | nil => simp [countSide]
  | cons a t ih => cases a <;> simp [countSide] <;> omega

/-- The states reachable from a state with an empty point collector by sequences of
`handleAddPoint`, `undoLastPoint` and `clearPoints`. -/
inductive PCReachable : AppState → Prop where
  | start (s : AppState) (hL : s.pointsL = []) (hR : s.pointsR = [])
      (hH : s.pointHistory = []) : PCReachable s
  | add (side : Side) (p : Point) (s : AppState) (h : PCReachable s) :
      PCReachable (handleAddPoint side p s)
  | undo (s : AppState) (h : PCReachable s) : PCReachable (undoLastPoint s)
  | clear (s : AppState) (h : PCReachable s) : PCReachable (clearPoints s)

lemma pc_counts {s : AppState} (h : PCReachable s) :
    countSide Side.left s.pointHistory = s.pointsL.length ∧
    countSide Side.right s.pointHistory = s.pointsR.length := by
  induction h with
  | start s hL hR hH => simp [hL, hR, hH, countSide]
  | add side p s h ih =>
    cases side <;>
      simp [handleAddPoint, countSide_append, countSide] <;> omega
  | undo s h ih =>
    cases hlast : s.pointHistory.getLast? with
    | none => simpa [undoLastPoint, hlast] using ih
    | some side =>
      obtain ⟨t, ht⟩ := List.getLast?_eq_some_iff.mp hlast
      rw [ht, countSide_append, countSide_append] at ih
      have hlenL : 1 ≤ s.pointsL.length ∨ side = Side.right := by
        cases side
        · left; simp [countSide] at ih; omega
        · right; rfl
      cases side
      · have h1 : 1 ≤ s.pointsL.length := by simp [countSide] at ih; omega
        simp only [undoLastPoint, hlast]
        simp [ht, List.dropLast_concat, countSide_append, countSide,
          List.length_dropLast]
        constructor <;> [skip; skip] <;> simp [countSide] at ih <;> omega
      · have h1 : 1 ≤ s.pointsR.length := by simp [countSide] at ih; omega
        simp only [undoLastPoint, hlast]
        simp [ht, List.dropLast_concat, countSide_append, countSide,
          List.length_dropLast]
        constructor <;> [skip; skip] <;> simp [countSide] at ih <;> omega
  | clear s h ih => simp [clearPoints, countSide]

/-- C7: in every collector state reachable by `addPoint` / `undoLast` / `clear`, the
history length equals the sum of the two point-set lengths; `undoLast` is a no-op on an
empty history, and otherwise pops the last history tag together with the last point of
the tagged side (the chronologically most recent point), leaving the other side
untouched. -/
theorem pointCollector_invariant (s : AppState) :
    (PCReachable s → s.pointHistory.length = s.pointsL.length + s.pointsR.length) ∧
    (s.pointHistory = [] → undoLastPoint s = s) ∧
    (∀ t side, s.pointHistory = t ++ [side] →
       (undoLastPoint s).pointHistory = t ∧
       (side = Side.left →
          (undoLastPoint s).pointsL = s.pointsL.dropLast ∧
          (undoLastPoint s).pointsR = s.pointsR) ∧
       (side = Side.right →
          (undoLastPoint s).pointsR = s.pointsR.dropLast ∧
          (undoLastPoint s).pointsL = s.pointsL)) := by
  refine ⟨?_, ?_, ?_⟩
  · intro h
    have hc := pc_counts h
    have ht := countSide_total s.pointHistory
    omega
  · intro h0
    simp [undoLastPoint, h0]
  · intro t side ht
    have hlast : s.pointHistory.getLast? = some side := by
      rw [ht]; exact List.getLast?_concat t
    cases side <;> simp [undoLastPoint, hlast, ht, List.dropLast_concat]

/-- A state with an empty collector from which the C7 witness states are built. -/
def pcState0 : AppState :=
  { step := AppStep.ROTATE, srcL := some imgL, srcR := some imgR,
    canvasL := some imgL, canvasR := some imgR,
    pointsL := [], pointsR := [], pointHistory := [],
    options := { assumeEqualTilt := false, assumeEqualZoom := false,
                 assumeEqualFraming := false, rotateLeftImage := false },
    resultCanvas := none, nextAlloc := 2, alerts := [] }

/-- The collector state after adding points left, right, left. -/
def pcState3 : AppState :=
  handleAddPoint Side.left ⟨3, 4⟩
    (handleAddPoint Side.right ⟨1, 2⟩
      (handleAddPoint Side.left ⟨0, 0⟩ pcState0))

/-- Witness for C7: after adding left, right, left, the invariant holds and one undo
removes the second left point, leaving the right point and the first left point. -/
theorem pointCollector_invariant_witness :
    PCReachable pcState3 ∧
    pcState3.pointHistory.length = pcState3.pointsL.length + pcState3.pointsR.length ∧
    (undoLastPoint pcState3).pointsL = [⟨0, 0⟩] ∧
    (undoLastPoint pcState3).pointsR = [⟨1, 2⟩] ∧
    (undoLastPoint pcState3).pointHistory = [Side.left, Side.right] := by
  have hreach : PCReachable pcState3 :=
    PCReachable.add Side.left ⟨3, 4⟩ _
      (PCReachable.add Side.right ⟨1, 2⟩ _
        (PCReachable.add Side.left ⟨0, 0⟩ _ (PCReachable.start pcState0 rfl rfl rfl)))
  have h := pointCollector_invariant pcState3
  have hsplit := h.2.2 [Side.left, Side.right] Side.left (by decide)
  refine ⟨hreach, h.1 hreach, ?_, ?_, hsplit.1⟩
  · rw [(hsplit.2.1 rfl).1]; decide
  · rw [(hsplit.2.1 rfl).2]; decide

/-- The pan/zoom state of one `InteractiveCanvas` view. -/
structure ViewState where
  scale : ℚ
  offsetX : ℚ
  offsetY : ℚ
  fitDone : Bool
deriving DecidableEq

/-- InteractiveCanvas.tsx `fitToContainer`: with no image or a zero-sized container the
state is untouched; otherwise scale to 95% of the fitting scale and center the image. -/
def fitToContainer (image : Option Canvas) (cw ch : ℚ) (v : ViewState) : ViewState :=
  match image with
  | none => v
  | some img =>
    if cw = 0 ∨ ch = 0 then v
    else
      let scaleW := cw / (img.width : ℚ)
      let scaleH := ch / (img.height : ℚ)
      let startScale := min scaleW scaleH * 0.95
      { scale := startScale,
        offsetX := (cw - (img.width : ℚ) * startScale) / 2,
        offsetY := (ch - (img.height : ℚ) * startScale) / 2,
        fitDone := true }

/-- C9: for positive image and viewport dimensions, fit-to-view sets
`scale = 0.95 · min(cw/iw, ch/ih)` and centers the image per axis, and running it a
second time with the same sizes returns the identical view state. -/
theorem fitToContainer_spec (img : Canvas) (cw ch : ℚ) (v : ViewState)
    (_hw : 0 < img.width) (_hh : 0 < img.height) (hcw : 0 < cw) (hch : 0 < ch) :
    (fitToContainer (some img) cw ch v).scale =
      0.95 * min (cw / (img.width : ℚ)) (ch / (img.height : ℚ)) ∧
    (fitToContainer (some img) cw ch v).offsetX =
      (cw - (img.width : ℚ) * (fitToContainer (some img) cw ch v).scale) / 2 ∧
    (fitToContainer (some img) cw ch v).offsetY =
      (ch - (img.height : ℚ) * (fitToContainer (some img) cw ch v).scale) / 2 ∧
    fitToContainer (some img) cw ch (fitToContainer (some img) cw ch v) =
      fitToContainer (some img) cw ch v := by
  have hguard : ¬ (cw = 0 ∨ ch = 0) := by
    push_neg
    exact ⟨ne_of_gt hcw, ne_of_gt hch⟩
  simp only [fitToContainer, if_neg hguard]
  exact ⟨mul_comm _ _, by trivial, by trivial, by trivial⟩

/-- The initial view state of `InteractiveCanvas` (`useState(1)`, offsets 0). -/
def vInit : ViewState := { scale := 1, offsetX := 0, offsetY := 0, fitDone := false }

/-- Witness for C9: a 200 × 100 image in a 190 × 190 viewport gets scale
`0.95 · min(190/200, 190/100) = 361/400`, and refitting is idempotent. -/
theorem fitToContainer_spec_witness :
    (0 : ℤ) < (Canvas.uploaded 0 200 100).width ∧ (0 : ℚ) < 190 ∧
    (fitToContainer (some (Canvas.uploaded 0 200 100)) 190 190 vInit).scale = 361 / 400 ∧
    fitToContainer (some (Canvas.uploaded 0 200 100)) 190 190
        (fitToContainer (some (Canvas.uploaded 0 200 100)) 190 190 vInit) =
      fitToContainer (some (Canvas.uploaded 0 200 100)) 190 190 vInit := by
  have h := fitToContainer_spec (Canvas.uploaded 0 200 100) 190 190 vInit
    (by decide) (by decide) (by norm_num) (by norm_num)
  refine ⟨by decide, by norm_num, ?_, h.2.2.2⟩
  rw [h.1]
  show (0.95 : ℚ) * min ((190 : ℚ) / ((200 : ℤ) : ℚ)) ((190 : ℚ) / ((100 : ℤ) : ℚ)) =
    361 / 400
  push_cast
  rw [min_def]
  norm_num

lemma calculateAngle_self (p : Point) : calculateAngle p p = 0 := by
  unfold calculateAngle
  have h0 : (⟨(p.x : ℝ) - (p.x : ℝ), (p.y : ℝ) - (p.y : ℝ)⟩ : ℂ) = 0 := by
    apply Complex.ext <;> simp
  rw [h0, Complex.arg_zero, zero_mul]

/-- C10: for coincident input points (both deltas zero), `calculateAngle` returns
exactly 0 (JavaScript's `atan2(0, 0) = 0`), rather than failing. -/
theorem calculateAngle_coincident (p : Point) : calculateAngle p p = 0 :=
  calculateAngle_self p

/-- C8 counterexample: for coincident points the angle is 0 in both directions, and
`0 ≡ 0 + 180 (mod 360)` is false, so the antisymmetry claim fails without a
distinctness hypothesis. -/
theorem calculateAngle_antisym_cex :
    calculateAngle ⟨0, 0⟩ ⟨0, 0⟩ = 0 ∧
    ¬ ∃ k : ℤ, calculateAngle ⟨0, 0⟩ ⟨0, 0⟩ =
        calculateAngle ⟨0, 0⟩ ⟨0, 0⟩ + 180 + 360 * k := by
  refine ⟨calculateAngle_self _, ?_⟩
  rintro ⟨k, hk⟩
  rw [calculateAngle_self] at hk
  have h2 : ((2 * k + 1 : ℤ) : ℝ) = 0 := by push_cast; linarith
  have h3 : (2 * k + 1 : ℤ) = 0 := by exact_mod_cast h2
  omega

/-- C8 (amended): for distinct points `p1 ≠ p2`,
`angle(p1,p2) ≡ angle(p2,p1) + 180 (mod 360)`. -/
theorem calculateAngle_antisym (p1 p2 : Point) (h : p1 ≠ p2) :
    ∃ k : ℤ, calculateAngle p1 p2 = calculateAngle p2 p1 + 180 + 360 * k := by
  have hz : (⟨(p2.x : ℝ) - (p1.x : ℝ), (p2.y : ℝ) - (p1.y : ℝ)⟩ : ℂ) ≠ 0 := by
    intro h0
    apply h
    have hre := congrArg Complex.re h0
    have him := congrArg Complex.im h0
    simp only [Complex.zero_re, Complex.zero_im] at hre him
    have hx : p1.x = p2.x := by
      have hc : (p2.x : ℝ) - (p1.x : ℝ) = 0 := hre
      have hcx : (p2.x : ℝ) = (p1.x : ℝ) := by linarith
      exact_mod_cast hcx.symm
    have hy : p1.y = p2.y := by
      have hc : (p2.y : ℝ) - (p1.y : ℝ) = 0 := him
      have hcy : (p2.y : ℝ) = (p1.y : ℝ) := by linarith
      exact_mod_cast hcy.symm
    cases p1; cases p2
    simp_all
  have hneg : (⟨(p1.x : ℝ) - (p2.x : ℝ), (p1.y : ℝ) - (p2.y : ℝ)⟩ : ℂ) =
      -(⟨(p2.x : ℝ) - (p1.x : ℝ), (p2.y : ℝ) - (p1.y : ℝ)⟩ : ℂ) := by
    apply Complex.ext <;> simp
  have harg := Complex.arg_neg_coe_angle hz
  rw [← Real.Angle.coe_add, Real.Angle.angle_eq_iff_two_pi_dvd_sub] at harg
  obtain ⟨k, hk⟩ := harg
  refine ⟨-(k + 1), ?_⟩
  unfold calculateAngle
  rw [hneg]
  generalize (⟨(p2.x : ℝ) - (p1.x : ℝ), (p2.y : ℝ) - (p1.y : ℝ)⟩ : ℂ) = z at hk ⊢
  have hpi : Real.pi ≠ 0 := Real.pi_ne_zero
  have hk2 : (-z).arg = z.arg + Real.pi + 2 * Real.pi * (k : ℝ) := by linarith
  rw [hk2]
  push_cast
  field_simp
  ring

/-- Witness for C8 (amended) at the distinct points (0,0) and (1,0). -/
theorem calculateAngle_antisym_witness :
    ((⟨0, 0⟩ : Point) ≠ ⟨1, 0⟩) ∧
    ∃ k : ℤ, calculateAngle ⟨0, 0⟩ ⟨1, 0⟩ = calculateAngle ⟨1, 0⟩ ⟨0, 0⟩ + 180 + 360 * k :=
  ⟨by decide, calculateAngle_antisym ⟨0, 0⟩ ⟨1, 0⟩ (by decide)⟩

end StereoAlign
